import Mathlib

/-!
Shallow embedding of the movie-ticket booking web application
(`src/movie-booking/app.py`) and proofs of its specification claims.

Modelling conventions:
* The relational store (SQLAlchemy models `User`, `Movie`, `Showtime`,
  `Seat`, `Booking`) becomes a `State` record of lists of plain records.
* Times (`datetime`) are minutes since an epoch, as `Nat`; truncating a
  datetime to the whole hour (`replace(minute=0, second=0, microsecond=0)`)
  is `t - t % 60`, one hour is 60, `timedelta(hours=h)` is `60 * h`.
* Monetary values (`Float` columns holding small decimal prices) are `ℚ`.
* Auto-increment primary keys that the application reads (`movie.id`,
  `showtime.id`, `user.id`) are modelled with explicit counters in the
  state; the surrogate keys `seat.id` and `booking.id` are never read by
  any application code, so the records omit them.
* Each Flask route handler becomes a pure function from the request data
  and the current state to a result value and the successor state; a
  handler that only reads returns the state unchanged.  `db.session.commit`
  corresponds to returning the successor state: the whole transition is a
  single atomic step of the model.
-/

/-- A registered account (`User` model: id, name, unique email,
password hash, admin flag). -/
structure User where
  id : Nat
  name : String
  email : String
  password_hash : String
  is_admin : Bool
deriving Repr, DecidableEq

/-- A movie in the catalog (`Movie` model). -/
structure Movie where
  id : Nat
  title : String
  description : String
  duration_minutes : Nat
  poster_url : String
deriving Repr, DecidableEq

/-- A scheduled screening (`Showtime` model): belongs to one movie,
has a start time and a ticket price. -/
structure Showtime where
  id : Nat
  movie_id : Nat
  start_time : Nat
  ticket_price : ℚ
deriving Repr, DecidableEq

/-- One bookable seat of a showtime (`Seat` model).  The database
surrogate key `id` is never read by the application and is omitted. -/
structure Seat where
  showtime_id : Nat
  seat_label : String
  is_booked : Bool
deriving Repr, DecidableEq

/-- A successful reservation (`Booking` model).  `seat_labels` is the
comma-joined CSV of the booked labels, exactly as the code stores it.
The database surrogate key `id` is never read and is omitted. -/
structure Booking where
  user_id : Nat
  showtime_id : Nat
  seat_labels : String
  total_price : ℚ
  booked_at : Nat
deriving Repr, DecidableEq

/-- The whole relational store plus the auto-increment counters for the
primary keys the application reads. -/
structure State where
  users : List User
  movies : List Movie
  showtimes : List Showtime
  seats : List Seat
  bookings : List Booking
  nextUserId : Nat
  nextMovieId : Nat
  nextShowtimeId : Nat
deriving Repr, DecidableEq

/-- Modelled from the spec: the external password hashing library
(werkzeug `generate_password_hash` / `check_password_hash`), which the
spec treats as an external collaborator; its source is not part of the
repository.  The model keys a character-wise digest on the salt. -/
def saltVal (salt : String) : Nat :=
  salt.data.foldl (fun a c => a + c.toNat) 0

/-- Modelled from the spec: digest of a password under a salt; one
decimal digit per password character, so the digest never contains the
separator character of the stored hash format. -/
def hashDigest (salt password : String) : String :=
  String.mk (password.data.map (fun c => Char.ofNat (48 + (c.toNat + saltVal salt) % 10)))

/-- Modelled from the spec: `generate_password_hash` produces a stored
string `method:salt:digest` — a salted hash of the password, not the
plaintext. -/
def generate_password_hash (salt password : String) : String :=
  "pbkdf2:" ++ salt ++ ":" ++ hashDigest salt password

/-- Split a character list at every `:` (the separator of the stored
hash format); structural recursion so it is kernel-computable. -/
def splitOnColon : List Char → List (List Char)
  | [] => [[]]
  | c :: rest =>
    match splitOnColon rest with
    | [] => [[c]]
    | h :: t => if c = ':' then [] :: h :: t else (c :: h) :: t

/-- Modelled from the spec: `check_password_hash` splits the stored
string and recomputes the digest of the candidate password under the
stored salt. -/
def check_password_hash (stored password : String) : Bool :=
  match (splitOnColon stored.data).map String.mk with
  | [m, salt, digest] => m == "pbkdf2" && digest == hashDigest salt password
  | _ => false

/-- Function `create_seats_for_showtime`: one seat per row letter (`chr(ord('A')+r)`
for `r < rows`) and column number (`1..cols`), all unbooked, all belonging
to the given showtime. -/
def create_seats_for_showtime (showtime_id : Nat) (rows : Nat := 5) (cols : Nat := 8) :
    List Seat :=
  (List.range rows).flatMap (fun r =>
    (List.range cols).map (fun c =>
      { showtime_id := showtime_id
        seat_label := String.mk [Char.ofNat (65 + r)] ++ toString (c + 1)
        is_booked := false }))

/-- Result of the `POST /book/<showtime_id>` handler. -/
inductive BookResult where
  /-- Lookup `get_or_404` failed: unknown showtime id. -/
  | notFound
  /-- Empty seat selection: flash warning, redirect back. -/
  | emptySelection
  /-- Mismatched count or an already-booked seat: flash danger, redirect back. -/
  | unavailable
  /-- Booking confirmed. -/
  | success
deriving Repr, DecidableEq

/-- Handler `book_tickets`: look up the showtime, reject an empty selection,
fetch the seats matching the showtime and the selected labels, reject if
the count differs or any is booked, otherwise mark every matched seat
booked and append one booking record, committing both in one step. -/
def book_tickets (s : State) (current_user_id showtime_id : Nat)
    (selected_seats : List String) (now : Nat) : BookResult × State :=
  match s.showtimes.find? (fun st => st.id == showtime_id) with
  | none => (.notFound, s)
  | some showtime =>
    if selected_seats.isEmpty then
      (.emptySelection, s)
    else
      let seats := s.seats.filter
        (fun x => x.showtime_id == showtime.id && selected_seats.contains x.seat_label)
      if seats.length != selected_seats.length || seats.any (fun x => x.is_booked) then
        (.unavailable, s)
      else
        let total_price : ℚ := showtime.ticket_price * selected_seats.length
        let booking : Booking :=
          { user_id := current_user_id
            showtime_id := showtime.id
            seat_labels := String.intercalate "," selected_seats
            total_price := total_price
            booked_at := now }
        (.success,
          { s with
            seats := s.seats.map (fun x =>
              if x.showtime_id == showtime.id && selected_seats.contains x.seat_label then
                { x with is_booked := true }
              else x)
            bookings := s.bookings ++ [booking] })

/-! ### Demo seeding (`seed_demo_data`) -/

/-- The literal `demo_movies` list of `seed_demo_data`
(title, description, duration_minutes, poster_url). -/
def demo_movies : List (String × String × Nat × String) :=
  [("Interstellar",
    "A team of explorers travel through a wormhole in space in an attempt to ensure humanity's survival.",
    169,
    "https://m.media-amazon.com/images/I/91kFYg4fX3L._AC_SL1500_.jpg"),
   ("Inception",
    "A thief who steals corporate secrets through dream-sharing technology is given an inverse task of planting an idea.",
    148,
    "https://m.media-amazon.com/images/I/51s+JvFsHkL._AC_.jpg"),
   ("The Dark Knight",
    "Batman faces the Joker, a criminal mastermind who plunges Gotham into anarchy.",
    152,
    "https://m.media-amazon.com/images/I/51K8ouYrHeL._AC_.jpg")]

/-- One iteration of the inner `for i in range(3)` loop of `seed_demo_data`:
add the `i`-th showtime of a movie (start `base_time + timedelta(hours=3*i)`,
price `10.0 + 2.0*i`) together with its seat grid. -/
def seedShowtime (movieId base_time i : Nat) (s : State) : State :=
  let showtime : Showtime :=
    { id := s.nextShowtimeId
      movie_id := movieId
      start_time := base_time + 60 * (3 * i)
      ticket_price := 10 + 2 * i }
  { s with
    showtimes := s.showtimes ++ [showtime]
    seats := s.seats ++ create_seats_for_showtime showtime.id
    nextShowtimeId := s.nextShowtimeId + 1 }

/-- One iteration of the outer `for movie_data in demo_movies` loop:
add the movie, then its three showtimes with their seats. -/
def seedMovie (base_time : Nat) (s : State) (md : String × String × Nat × String) : State :=
  let movie : Movie :=
    { id := s.nextMovieId
      title := md.1
      description := md.2.1
      duration_minutes := md.2.2.1
      poster_url := md.2.2.2 }
  let s1 := { s with movies := s.movies ++ [movie], nextMovieId := s.nextMovieId + 1 }
  (List.range 3).foldl (fun acc i => seedShowtime movie.id base_time i acc) s1

/-- The demo administrator account created by seeding
(`User(name='Demo User', email='demo@example.com', is_admin=True)` with
password `password`). -/
def demoUser (id : Nat) (salt : String) : User :=
  { id := id
    name := "Demo User"
    email := "demo@example.com"
    password_hash := generate_password_hash salt "password"
    is_admin := true }

/-- Function `seed_demo_data`: a no-op when the movie catalog is non-empty;
otherwise creates the demo movies, each with 3 showtimes spaced 3 hours
apart starting 2 hours after `now` truncated to the whole hour, each
showtime with its 5×8 seat grid, and the demo user if absent.
`now` is `datetime.utcnow()` in minutes; `salt` is the hashing salt. -/
def seed_demo_data (s : State) (now : Nat) (salt : String) : State :=
  if s.movies.length > 0 then s
  else
    let base_time := now - now % 60 + 60 * 2
    let s1 := demo_movies.foldl (seedMovie base_time) s
    if (s1.users.find? (fun u => u.email == "demo@example.com")).isSome then s1
    else { s1 with users := s1.users ++ [demoUser s1.nextUserId salt], nextUserId := s1.nextUserId + 1 }

/-! ### Seat-map display (`showtime_detail`) -/

/-- The grouping key of a seat in the seat-map: `seat.seat_label[0]`,
the leading row letter (as a one-character string). -/
def rowKey (seat : Seat) : String :=
  seat.seat_label.take 1

/-- Step `rows.setdefault(row_label, []).append(seat)` on an insertion-ordered
dictionary, modelled as an association list: append to the first entry
with the key, or add a new entry at the end. -/
def addToRows (rows : List (String × List Seat)) (key : String) (seat : Seat) :
    List (String × List Seat) :=
  match rows with
  | [] => [(key, [seat])]
  | (k, v) :: rest =>
    if k == key then (k, v ++ [seat]) :: rest
    else (k, v) :: addToRows rest key seat

/-- The `for seat in seats` loop of `showtime_detail`: group the fetched
seats into rows keyed by the leading row letter. -/
def groupRows (seats : List Seat) : List (String × List Seat) :=
  seats.foldl (fun rows seat => addToRows rows (rowKey seat) seat) []

/-- The row stored under a key in the grouped seat-map
(`[]` when the key is absent). -/
def rowOf (rows : List (String × List Seat)) (key : String) : List Seat :=
  match rows.find? (fun p => p.1 == key) with
  | some p => p.2
  | none => []

/-- Query `ORDER BY seat_label ASC`: sort the fetched seats by label
(SQLite binary collation agrees with Lean's `String` order on these
ASCII labels). -/
def sortSeatsByLabel (seats : List Seat) : List Seat :=
  seats.insertionSort (fun a b => a.seat_label ≤ b.seat_label)

/-- Handler `showtime_detail`: 404 on an unknown showtime; otherwise fetch the
showtime's seats ordered by label, group them into rows, and render.
Read-only: the state component of the result is the input state. -/
def showtime_detail (s : State) (showtime_id : Nat) :
    Option (Showtime × List (String × List Seat)) × State :=
  match s.showtimes.find? (fun st => st.id == showtime_id) with
  | none => (none, s)
  | some showtime =>
    let seats := sortSeatsByLabel (s.seats.filter (fun x => x.showtime_id == showtime.id))
    (some (showtime, groupRows seats), s)

/-! ### Accounts (`register`, `login`, `logout`) -/

/-- Python `str.strip()` / `str.lower()` as used on the form fields,
modelled character-wise so they are kernel-computable (the ASCII range
covers every character the application's own data uses). -/
def isSpaceChar (c : Char) : Bool :=
  c == ' ' || c == '\t' || c == '\n' || c == '\r'

/-- Python `str.strip()`: drop whitespace from both ends. -/
def strip (s : String) : String :=
  String.mk (((s.data.dropWhile isSpaceChar).reverse.dropWhile isSpaceChar).reverse)

/-- Python `str.lower()` on one character (ASCII). -/
def lowerChar (c : Char) : Char :=
  if 65 ≤ c.toNat && c.toNat ≤ 90 then Char.ofNat (c.toNat + 32) else c

/-- Python `str.lower()`: lowercase every character. -/
def lower (s : String) : String :=
  String.mk (s.data.map lowerChar)

/-- Result of the `POST /register` handler. -/
inductive RegisterResult where
  /-- Some field is empty after normalization: flash warning. -/
  | fieldsRequired
  /-- The normalized email is already in use: flash warning. -/
  | emailInUse
  /-- User created; redirect to login. -/
  | success
deriving Repr, DecidableEq

/-- Handler `register` (POST branch): normalize the fields
(`name.strip()`, `email.strip().lower()`, password untouched), reject
empty fields or an email already in use, otherwise create one user with
a salted password hash. -/
def register (s : State) (name0 email0 password salt : String) : RegisterResult × State :=
  let name := strip name0
  let email := lower (strip email0)
  if name == "" || email == "" || password == "" then
    (.fieldsRequired, s)
  else if (s.users.find? (fun u => u.email == email)).isSome then
    (.emailInUse, s)
  else
    let user : User :=
      { id := s.nextUserId
        name := name
        email := email
        password_hash := generate_password_hash salt password
        is_admin := false }
    (.success, { s with users := s.users ++ [user], nextUserId := s.nextUserId + 1 })

/-- Result of the `POST /login` handler. -/
inductive LoginResult where
  /-- Session established for this user id. -/
  | loggedIn (user_id : Nat)
  /-- Generic failure flash, identical for unknown email and wrong password. -/
  | invalid (msg : String)
deriving Repr, DecidableEq

/-- Handler `login` (POST branch): normalize the email (`strip().lower()`), find
the user by email, verify the password hash; any failure produces the
one generic invalid-credentials message.  Read-only on the store. -/
def login (s : State) (email0 password : String) : LoginResult × State :=
  let email := lower (strip email0)
  match s.users.find? (fun u => u.email == email) with
  | some user =>
    if check_password_hash user.password_hash password then (.loggedIn user.id, s)
    else (.invalid "Invalid email or password.", s)
  | none => (.invalid "Invalid email or password.", s)

/-! ### The operations of the system -/

/-- Every operation of the system that touches the store: the five POST
or state-changing handlers and the read-only pages.  Session-only
effects (`login_user`, `logout_user`, flashes) are outside the store. -/
inductive Op where
  /-- Startup seeding (`seed_demo_data`). -/
  | seed (now : Nat) (salt : String)
  /-- Route `POST /register`. -/
  | register (name email password salt : String)
  /-- Route `POST /login`. -/
  | login (email password : String)
  /-- Route `GET /logout` (session only). -/
  | logout
  /-- Route `POST /book/<showtime_id>` by the authenticated user. -/
  | book (current_user_id showtime_id : Nat) (selected_seats : List String) (now : Nat)
  /-- Route `GET /` (read-only). -/
  | viewHome
  /-- Route `GET /movie/<movie_id>` (read-only). -/
  | viewMovie (movie_id : Nat)
  /-- Route `GET /showtime/<showtime_id>` (read-only). -/
  | viewShowtime (showtime_id : Nat)
  /-- Route `GET /bookings` (read-only). -/
  | viewBookings (user_id : Nat)
deriving Repr, DecidableEq

/-- The successor store state of each operation. -/
def State.apply (s : State) : Op → State
  | .seed now salt => seed_demo_data s now salt
  | .register name email password salt => (register s name email password salt).2
  | .login email password => (login s email password).2
  | .logout => s
  | .book uid stid selected now => (book_tickets s uid stid selected now).2
  | .viewHome => s
  | .viewMovie _ => s
  | .viewShowtime stid => (showtime_detail s stid).2
  | .viewBookings _ => s

/-! ### Characterization of what seeding creates -/

/-- The three demo movie records, with ids counted from `M`. -/
def seededMovies (M : Nat) : List Movie :=
  [⟨M, "Interstellar",
    "A team of explorers travel through a wormhole in space in an attempt to ensure humanity's survival.",
    169, "https://m.media-amazon.com/images/I/91kFYg4fX3L._AC_SL1500_.jpg"⟩,
   ⟨M + 1, "Inception",
    "A thief who steals corporate secrets through dream-sharing technology is given an inverse task of planting an idea.",
    148, "https://m.media-amazon.com/images/I/51s+JvFsHkL._AC_.jpg"⟩,
   ⟨M + 2, "The Dark Knight",
    "Batman faces the Joker, a criminal mastermind who plunges Gotham into anarchy.",
    152, "https://m.media-amazon.com/images/I/51K8ouYrHeL._AC_.jpg"⟩]

/-- The nine showtime records created by seeding: for each demo movie
(ids `M`, `M+1`, `M+2`), three showtimes with prices 10, 12, 14 and
start times `b`, `b+180`, `b+360`, where `b` is the seeding time
truncated to the whole hour plus two hours. -/
def seededShowtimes (K M b : Nat) : List Showtime :=
  [⟨K, M, b, 10⟩, ⟨K + 1, M, b + 180, 12⟩, ⟨K + 2, M, b + 360, 14⟩,
   ⟨K + 3, M + 1, b, 10⟩, ⟨K + 4, M + 1, b + 180, 12⟩, ⟨K + 5, M + 1, b + 360, 14⟩,
   ⟨K + 6, M + 2, b, 10⟩, ⟨K + 7, M + 2, b + 180, 12⟩, ⟨K + 8, M + 2, b + 360, 14⟩]

/-- The seat rows created by seeding: one 5×8 grid for each of the nine
showtimes `K`, …, `K+8`. -/
def seededSeats (K : Nat) : List Seat :=
  (List.range 9).flatMap (fun j => create_seats_for_showtime (K + j))

/-- The 40 labels of the fixed 5×8 grid: rows A–E crossed with columns 1–8. -/
def gridLabels : List String :=
  (List.range 5).flatMap (fun r =>
    (List.range 8).map (fun c => String.mk [Char.ofNat (65 + r)] ++ toString (c + 1)))

/-- A completely fresh store, as after `db.drop_all(); db.create_all()`. -/
def emptyState : State := ⟨[], [], [], [], [], 1, 1, 1⟩

/-! Small concrete states used to witness the theorems below. -/

def wMovie : Movie := ⟨1, "Interstellar", "d", 169, "u"⟩

def wShowtime : Showtime := ⟨1, 1, 120, 10⟩

def wSeat (label : String) (b : Bool) : Seat := ⟨1, label, b⟩

/-- A store with one movie, one showtime, and two seats; `a1` is the
booked flag of seat A1. -/
def wState (a1 : Bool) : State :=
  ⟨[], [wMovie], [wShowtime], [wSeat "A1" a1, wSeat "A2" false], [], 1, 2, 2⟩

def wUser : User := ⟨1, "Demo User", "demo@example.com", generate_password_hash "ab" "password", true⟩

/-- A store with one registered user (the demo account). -/
def wUsers : State := ⟨[wUser], [], [], [], [], 2, 1, 1⟩

/-- One outer loop iteration of `seed_demo_data` adds exactly one movie
and its three showtimes (prices 10, 12, 14; starts `b`, `b+180`,
`b+360`) with their seat grids. -/
theorem seedMovie_spec (b : Nat) (s : State) (md : String × String × Nat × String) :
    seedMovie b s md =
      { s with
        movies := s.movies ++ [⟨s.nextMovieId, md.1, md.2.1, md.2.2.1, md.2.2.2⟩]
        showtimes := s.showtimes ++
          [⟨s.nextShowtimeId, s.nextMovieId, b, 10⟩,
           ⟨s.nextShowtimeId + 1, s.nextMovieId, b + 180, 12⟩,
           ⟨s.nextShowtimeId + 2, s.nextMovieId, b + 360, 14⟩]
        seats := s.seats ++ create_seats_for_showtime s.nextShowtimeId
          ++ create_seats_for_showtime (s.nextShowtimeId + 1)
          ++ create_seats_for_showtime (s.nextShowtimeId + 2)
        nextMovieId := s.nextMovieId + 1
        nextShowtimeId := s.nextShowtimeId + 3 } := by
  simp [seedMovie, seedShowtime, List.range_succ, List.append_assoc]
  norm_num

/-- On an empty movie catalog, `seed_demo_data` produces exactly the
three demo movies, their nine showtimes, the nine seat grids, and the
demo user when absent. -/
theorem seed_spec (s : State) (now : Nat) (salt : String) (hm : s.movies = []) :
    seed_demo_data s now salt =
      (let b := now - now % 60 + 120
       let big : State :=
        { users := s.users
          movies := seededMovies s.nextMovieId
          showtimes := s.showtimes ++ seededShowtimes s.nextShowtimeId s.nextMovieId b
          seats := s.seats ++ seededSeats s.nextShowtimeId
          bookings := s.bookings
          nextUserId := s.nextUserId
          nextMovieId := s.nextMovieId + 3
          nextShowtimeId := s.nextShowtimeId + 9 }
       if (s.users.find? (fun u => u.email == "demo@example.com")).isSome then big
       else { big with users := s.users ++ [demoUser s.nextUserId salt],
                       nextUserId := s.nextUserId + 1 }) := by
  have h0 : ¬ s.movies.length > 0 := by simp [hm]
  rw [seed_demo_data, if_neg h0]
  simp only [demo_movies, List.foldl_cons, List.foldl_nil, seedMovie_spec]
  simp only [hm]
  simp [seededMovies, seededShowtimes, seededSeats, List.range_succ, List.append_assoc]

theorem create_seats_length (n : Nat) : (create_seats_for_showtime n).length = 40 := rfl

theorem create_seats_map_label (n : Nat) :
    (create_seats_for_showtime n).map (fun x => x.seat_label) = gridLabels := rfl

theorem gridLabels_nodup : gridLabels.Nodup := by decide

theorem mem_create_seats {x : Seat} {n rows cols : Nat}
    (h : x ∈ create_seats_for_showtime n rows cols) :
    x.showtime_id = n ∧ x.is_booked = false := by
  simp only [create_seats_for_showtime, List.mem_flatMap, List.mem_map, List.mem_range] at h
  obtain ⟨r, -, c, -, rfl⟩ := h
  exact ⟨rfl, rfl⟩

theorem create_seats_filter (n m rows cols : Nat) :
    (create_seats_for_showtime n rows cols).filter (fun x => x.showtime_id == m) =
      if n = m then create_seats_for_showtime n rows cols else [] := by
  split
  · next h =>
    apply List.filter_eq_self.2
    intro x hx
    simp [(mem_create_seats hx).1, h]
  · next h =>
    apply List.filter_eq_nil_iff.2
    intro x hx
    simp [(mem_create_seats hx).1, h]

theorem flatMap_single {α : Type} (n j : Nat) (L : List α) (hj : j < n) :
    ((List.range n).flatMap (fun i => if i = j then L else [])) = L := by
  induction n with
  | zero => omega
  | succ k ih =>
    rw [List.range_succ, List.flatMap_append]
    rcases Nat.lt_or_ge j k with hk | hk
    · have hkj : ¬ (k = j) := by omega
      rw [ih hk]
      simp [hkj]
    · have hjk : j = k := by omega
      subst hjk
      have hnil : (List.range j).flatMap (fun i => if i = j then L else []) = [] := by
        apply List.flatMap_eq_nil_iff.2
        intro i hi
        have hij : i < j := List.mem_range.1 hi
        simp [Nat.ne_of_lt hij]
      rw [hnil]
      simp

theorem seededSeats_filter (K j : Nat) (hj : j < 9) :
    (seededSeats K).filter (fun x => x.showtime_id == K + j) =
      create_seats_for_showtime (K + j) := by
  rw [seededSeats, List.filter_flatMap]
  have h : ∀ i : Nat, (create_seats_for_showtime (K + i)).filter (fun x => x.showtime_id == K + j)
      = if i = j then create_seats_for_showtime (K + j) else [] := by
    intro i
    rw [create_seats_filter]
    by_cases h : i = j
    · simp [h]
    · have : ¬ (K + i = K + j) := by omega
      simp [h, this]
  simp only [Function.comp, h]
  exact flatMap_single 9 j _ hj

/-- C1: on an existing showtime with a non-empty seat-label list, if the
count of seats matched by showtime-and-label differs from the requested
count, or any matched seat is already booked (in particular on a second
submission naming an already-booked seat), the whole request is rejected
and the state is unchanged: no seat flag changes, no booking is created. -/
theorem book_tickets_rejects (s : State) (uid stid : Nat) (selected : List String)
    (now : Nat) (showtime : Showtime)
    (hfind : s.showtimes.find? (fun st => st.id == stid) = some showtime)
    (hne : selected ≠ [])
    (hbad : (s.seats.filter (fun x =>
        x.showtime_id == showtime.id && selected.contains x.seat_label)).length ≠ selected.length
      ∨ ∃ x ∈ s.seats.filter (fun x =>
        x.showtime_id == showtime.id && selected.contains x.seat_label), x.is_booked = true) :
    book_tickets s uid stid selected now = (.unavailable, s) := by
  rw [book_tickets, hfind]
  simp only []
  rw [if_neg (by simp [hne]), if_pos]
  rcases hbad with h | ⟨x, hx, hb⟩
  · simp only [Bool.or_eq_true, bne_iff_ne, ne_eq]
    left
    simpa using h
  · simp only [Bool.or_eq_true, List.any_eq_true]
    right
    refine ⟨x, by simpa using hx, hb⟩

/-- C2: a successful booking of a non-empty label list appends exactly
one booking record with total price `ticket_price * count(labels)` and
the comma-joined requested labels, and sets every matched seat's booked
flag to true; the seats update and the booking insertion happen in the
one atomic state transition of the model (`db.session.commit`). -/
theorem book_tickets_success (s : State) (uid stid : Nat) (selected : List String)
    (now : Nat) (showtime : Showtime)
    (hfind : s.showtimes.find? (fun st => st.id == stid) = some showtime)
    (hne : selected ≠ [])
    (hlen : (s.seats.filter (fun x =>
        x.showtime_id == showtime.id && selected.contains x.seat_label)).length = selected.length)
    (hfree : ∀ x ∈ s.seats.filter (fun x =>
        x.showtime_id == showtime.id && selected.contains x.seat_label), x.is_booked = false) :
    book_tickets s uid stid selected now =
      (.success,
       { s with
         seats := s.seats.map (fun x =>
           if x.showtime_id == showtime.id && selected.contains x.seat_label then
             { x with is_booked := true }
           else x)
         bookings := s.bookings ++
           [{ user_id := uid
              showtime_id := showtime.id
              seat_labels := String.intercalate "," selected
              total_price := showtime.ticket_price * selected.length
              booked_at := now }] }) ∧
    ∀ x ∈ (book_tickets s uid stid selected now).2.seats,
      x.showtime_id = showtime.id → x.seat_label ∈ selected → x.is_booked = true := by
  have hmain : book_tickets s uid stid selected now =
      (.success,
       { s with
         seats := s.seats.map (fun x =>
           if x.showtime_id == showtime.id && selected.contains x.seat_label then
             { x with is_booked := true }
           else x)
         bookings := s.bookings ++
           [{ user_id := uid
              showtime_id := showtime.id
              seat_labels := String.intercalate "," selected
              total_price := showtime.ticket_price * selected.length
              booked_at := now }] }) := by
    rw [book_tickets, hfind]
    simp only []
    rw [if_neg (by simp [hne]), if_neg]
    simp only [Bool.or_eq_true, List.any_eq_true, not_or, bne_iff_ne, ne_eq, not_not]
    constructor
    · simpa using hlen
    · intro hx
      obtain ⟨x, hmem, hb⟩ := hx
      have := hfree x (by simpa using hmem)
      simp [this] at hb
  refine ⟨hmain, ?_⟩
  rw [hmain]
  intro x hx hst hsel
  simp only [List.mem_map] at hx
  obtain ⟨y, hy, rfl⟩ := hx
  by_cases hc : (y.showtime_id == showtime.id && selected.contains y.seat_label) = true
  · rw [if_pos hc]
  · exfalso
    rw [if_neg hc] at hst hsel
    exact hc (by simp [hst, hsel])

theorem register_snd_seats (s : State) (n e p salt : String) :
    (register s n e p salt).2.seats = s.seats := by
  rw [register]
  split
  · rfl
  · split <;> rfl

theorem login_snd (s : State) (e p : String) : (login s e p).2 = s := by
  rw [login]
  split
  · split <;> rfl
  · rfl

theorem showtime_detail_snd (s : State) (stid : Nat) :
    (showtime_detail s stid).2 = s := by
  rw [showtime_detail]
  split <;> rfl

theorem seed_seats_extends (s : State) (now : Nat) (salt : String) :
    ∃ t, (seed_demo_data s now salt).seats = s.seats ++ t := by
  by_cases hm : s.movies.length > 0
  · rw [seed_demo_data, if_pos hm]
    exact ⟨[], (List.append_nil _).symm⟩
  · have hm' : s.movies = [] := by
      cases h : s.movies
      · rfl
      · rw [h] at hm; simp at hm
    rw [seed_spec s now salt hm']
    refine ⟨seededSeats s.nextShowtimeId, ?_⟩
    split <;> rfl

theorem book_seats_cases (s : State) (uid stid : Nat) (sel : List String) (now : Nat) :
    (book_tickets s uid stid sel now).2.seats = s.seats ∨
    (book_tickets s uid stid sel now).2.seats = s.seats.map (fun x =>
      if x.showtime_id == (match s.showtimes.find? (fun st => st.id == stid) with
                           | some st => st.id
                           | none => 0) && sel.contains x.seat_label then
        { x with is_booked := true }
      else x) := by
  rw [book_tickets]
  cases hf : s.showtimes.find? (fun st => st.id == stid) with
  | none => exact Or.inl rfl
  | some showtime =>
    simp only []
    split
    · exact Or.inl rfl
    · split
      · exact Or.inl rfl
      · exact Or.inr rfl

/-- C3: across every operation of the system, each pre-existing seat
keeps its showtime and label, and its booked flag either stays the same
or flips from false to true, the latter only under the booking
operation; no operation ever reverts a booked seat to unbooked. -/
theorem seat_flags_monotone (op : Op) (s : State) :
    ∀ i : Nat, ∀ a : Seat, s.seats[i]? = some a →
      ∃ b : Seat, (s.apply op).seats[i]? = some b ∧
        b.showtime_id = a.showtime_id ∧ b.seat_label = a.seat_label ∧
        (b.is_booked = a.is_booked ∨
          (a.is_booked = false ∧ b.is_booked = true ∧
            ∃ uid stid sel bnow, op = Op.book uid stid sel bnow)) := by
  intro i a ha
  have hlt : i < s.seats.length := by
    rcases List.getElem?_eq_some.1 ha with ⟨h, -⟩
    exact h
  cases op with
  | seed now salt =>
    obtain ⟨t, ht⟩ := seed_seats_extends s now salt
    refine ⟨a, ?_, rfl, rfl, Or.inl rfl⟩
    show (seed_demo_data s now salt).seats[i]? = some a
    rw [ht, List.getElem?_append, if_pos hlt, ha]
  | register n e p salt =>
    refine ⟨a, ?_, rfl, rfl, Or.inl rfl⟩
    show (register s n e p salt).2.seats[i]? = some a
    rw [register_snd_seats, ha]
  | login e p =>
    refine ⟨a, ?_, rfl, rfl, Or.inl rfl⟩
    show (login s e p).2.seats[i]? = some a
    rw [login_snd, ha]
  | logout => exact ⟨a, ha, rfl, rfl, Or.inl rfl⟩
  | book uid stid sel bnow =>
    rcases book_seats_cases s uid stid sel bnow with h | h
    · refine ⟨a, ?_, rfl, rfl, Or.inl rfl⟩
      show (book_tickets s uid stid sel bnow).2.seats[i]? = some a
      rw [h, ha]
    · show ∃ b, (book_tickets s uid stid sel bnow).2.seats[i]? = some b ∧ _
      rw [h, List.getElem?_map, ha]
      simp only [Option.map_some']
      set cond := fun x : Seat =>
        x.showtime_id == (match s.showtimes.find? (fun st => st.id == stid) with
                          | some st => st.id
                          | none => 0) && sel.contains x.seat_label with hcond
      by_cases hc : cond a = true
      · refine ⟨_, rfl, ?_⟩
        rw [if_pos hc]
        cases hb : a.is_booked
        · exact ⟨rfl, rfl, Or.inr ⟨rfl, rfl, uid, stid, sel, bnow, rfl⟩⟩
        · exact ⟨rfl, rfl, Or.inl rfl⟩
      · refine ⟨_, rfl, ?_⟩
        rw [if_neg hc]
        exact ⟨rfl, rfl, Or.inl rfl⟩
  | viewHome => exact ⟨a, ha, rfl, rfl, Or.inl rfl⟩
  | viewMovie mid => exact ⟨a, ha, rfl, rfl, Or.inl rfl⟩
  | viewShowtime stid =>
    refine ⟨a, ?_, rfl, rfl, Or.inl rfl⟩
    show (showtime_detail s stid).2.seats[i]? = some a
    rw [showtime_detail_snd, ha]
  | viewBookings uid => exact ⟨a, ha, rfl, rfl, Or.inl rfl⟩

theorem seed_movies_pos (s : State) (now : Nat) (salt : String) :
    0 < (seed_demo_data s now salt).movies.length := by
  by_cases hm : s.movies.length > 0
  · rw [seed_demo_data, if_pos hm]
    exact hm
  · have hm' : s.movies = [] := List.length_eq_zero.1 (by omega)
    rw [seed_spec s now salt hm']
    split <;> simp [seededMovies]

/-- C4: seeding is idempotent: with a non-empty movie catalog it is a
no-op, running it twice equals running it once, and a run on a fresh
store leaves exactly one copy of each demo movie and of the demo user. -/
theorem seed_idempotent (s : State) (now now' : Nat) (salt salt' : String) :
    (s.movies ≠ [] → seed_demo_data s now salt = s) ∧
    seed_demo_data (seed_demo_data s now salt) now' salt' = seed_demo_data s now salt ∧
    (s.movies = [] →
      (seed_demo_data s now salt).movies.map (fun m => m.title) =
        ["Interstellar", "Inception", "The Dark Knight"]) ∧
    (s.movies = [] → s.users = [] →
      ((seed_demo_data s now salt).users.filter
        (fun u => u.email == "demo@example.com")).length = 1) := by
  refine ⟨?_, ?_, ?_, ?_⟩
  · intro hne
    rw [seed_demo_data, if_pos (by simpa [List.length_pos] using hne)]
  · have hpos := seed_movies_pos s now salt
    generalize hG : seed_demo_data s now salt = S
    rw [hG] at hpos
    rw [seed_demo_data, if_pos hpos]
  · intro hm
    rw [seed_spec s now salt hm]
    split <;> simp [seededMovies]
  · intro hm hu
    rw [seed_spec s now salt hm]
    rw [hu]
    simp [demoUser]

theorem seed_movies_eq (s : State) (now : Nat) (salt : String) (hm : s.movies = []) :
    (seed_demo_data s now salt).movies = seededMovies s.nextMovieId := by
  rw [seed_spec s now salt hm]
  split <;> rfl

theorem seed_showtimes_eq (s : State) (now : Nat) (salt : String)
    (hm : s.movies = []) (hst : s.showtimes = []) :
    (seed_demo_data s now salt).showtimes =
      seededShowtimes s.nextShowtimeId s.nextMovieId (now - now % 60 + 120) := by
  rw [seed_spec s now salt hm]
  split <;> (rw [hst]; rfl)

/-- C5 (amended): seeding an empty catalog creates, for each demo
movie, exactly 3 showtimes with prices 10, 12, 14 (increasing by 2 per
index from 10), whose first start time is 2 hours after the seeding
time truncated down to the whole hour, successive starts 3 hours apart.
(`s.showtimes = []` follows from the empty catalog by the foreign-key
integrity of the store: every showtime references a movie.) -/
theorem seed_showtimes_spec (s : State) (now : Nat) (salt : String)
    (hm : s.movies = []) (hst : s.showtimes = []) :
    (seed_demo_data s now salt).movies = seededMovies s.nextMovieId ∧
    (seed_demo_data s now salt).showtimes =
      seededShowtimes s.nextShowtimeId s.nextMovieId (now - now % 60 + 120) ∧
    ∀ m ∈ (seed_demo_data s now salt).movies,
      ((seed_demo_data s now salt).showtimes.filter (fun st => st.movie_id == m.id)).map
          (fun st => (st.start_time, st.ticket_price)) =
        [(now - now % 60 + 120, (10 : ℚ)),
         (now - now % 60 + 120 + 180, 12),
         (now - now % 60 + 120 + 360, 14)] := by
  have hmv := seed_movies_eq s now salt hm
  have hsh := seed_showtimes_eq s now salt hm hst
  refine ⟨hmv, hsh, ?_⟩
  intro m hmem
  rw [hmv] at hmem
  rw [hsh]
  have h1 : (s.nextMovieId + 1 == s.nextMovieId) = false := by simp
  have h2 : (s.nextMovieId + 2 == s.nextMovieId) = false := by simp
  have h3 : (s.nextMovieId == s.nextMovieId + 1) = false := by simp
  have h4 : (s.nextMovieId + 2 == s.nextMovieId + 1) = false := by simp
  have h5 : (s.nextMovieId == s.nextMovieId + 2) = false := by simp
  have h6 : (s.nextMovieId + 1 == s.nextMovieId + 2) = false := by simp
  have h7 : ∀ n : Nat, (n == n) = true := by simp
  fin_cases hmem <;>
    simp [seededShowtimes, List.filter, h1, h2, h3, h4, h5, h6, h7]

/-- C5 counterexample: seeding a fresh catalog at time 30 (00:30) gives
a first showtime start of 120 (02:00), not 150 = 30 + 120; so the first
start time is not in general 2 hours from the seeding time. -/
theorem seed_first_start_not_now_plus_120 :
    ((seed_demo_data emptyState 30 "ab").showtimes.map (fun st => st.start_time)).head? =
      some 120 ∧ (120 : Nat) ≠ 30 + 120 := ⟨rfl, by decide⟩

theorem seed_showtimes_witness :
    (seed_demo_data emptyState 30 "ab").showtimes = seededShowtimes 1 1 120 :=
  (seed_showtimes_spec emptyState 30 "ab" rfl rfl).2.1

theorem grid_props (K j : Nat) (hj : j < 9) :
    ((seededSeats K).filter (fun x => x.showtime_id == K + j)).map
        (fun x => x.seat_label) = gridLabels ∧
    (∀ x ∈ (seededSeats K).filter (fun x => x.showtime_id == K + j),
      x.showtime_id = K + j ∧ x.is_booked = false) ∧
    ((seededSeats K).filter (fun x => x.showtime_id == K + j)).length = 40 := by
  rw [seededSeats_filter K j hj]
  refine ⟨create_seats_map_label _, ?_, create_seats_length _⟩
  intro x hx
  exact mem_create_seats hx

/-- C6: every showtime created by seeding a fresh store receives
exactly 40 seats whose labels are the fixed 5×8 grid (rows A–E crossed
with columns 1–8, one seat per label since `gridLabels` is duplicate
free), each belonging to that showtime only and initially unbooked.
(Fresh store: empty seats/showtimes follow from the empty catalog by
foreign-key integrity.) -/
theorem seed_seat_grid (s : State) (now : Nat) (salt : String)
    (hm : s.movies = []) (hst : s.showtimes = []) (hseat : s.seats = []) :
    ∀ st ∈ (seed_demo_data s now salt).showtimes,
      ((seed_demo_data s now salt).seats.filter (fun x => x.showtime_id == st.id)).map
          (fun x => x.seat_label) = gridLabels ∧
      (∀ x ∈ (seed_demo_data s now salt).seats.filter (fun x => x.showtime_id == st.id),
        x.showtime_id = st.id ∧ x.is_booked = false) ∧
      ((seed_demo_data s now salt).seats.filter
        (fun x => x.showtime_id == st.id)).length = 40 ∧
      gridLabels.Nodup := by
  have hsh : (seed_demo_data s now salt).showtimes =
      seededShowtimes s.nextShowtimeId s.nextMovieId (now - now % 60 + 120) :=
    seed_showtimes_eq s now salt hm hst
  have hse : (seed_demo_data s now salt).seats = seededSeats s.nextShowtimeId := by
    rw [seed_spec s now salt hm]
    split <;> (show s.seats ++ _ = _; rw [hseat]; rfl)
  intro st hmem
  rw [hsh] at hmem
  rw [hse]
  fin_cases hmem
  · exact ⟨(grid_props s.nextShowtimeId 0 (by omega)).1,
      (grid_props s.nextShowtimeId 0 (by omega)).2.1,
      (grid_props s.nextShowtimeId 0 (by omega)).2.2, gridLabels_nodup⟩
  · exact ⟨(grid_props s.nextShowtimeId 1 (by omega)).1,
      (grid_props s.nextShowtimeId 1 (by omega)).2.1,
      (grid_props s.nextShowtimeId 1 (by omega)).2.2, gridLabels_nodup⟩
  · exact ⟨(grid_props s.nextShowtimeId 2 (by omega)).1,
      (grid_props s.nextShowtimeId 2 (by omega)).2.1,
      (grid_props s.nextShowtimeId 2 (by omega)).2.2, gridLabels_nodup⟩
  · exact ⟨(grid_props s.nextShowtimeId 3 (by omega)).1,
      (grid_props s.nextShowtimeId 3 (by omega)).2.1,
      (grid_props s.nextShowtimeId 3 (by omega)).2.2, gridLabels_nodup⟩
  · exact ⟨(grid_props s.nextShowtimeId 4 (by omega)).1,
      (grid_props s.nextShowtimeId 4 (by omega)).2.1,
      (grid_props s.nextShowtimeId 4 (by omega)).2.2, gridLabels_nodup⟩
  · exact ⟨(grid_props s.nextShowtimeId 5 (by omega)).1,
      (grid_props s.nextShowtimeId 5 (by omega)).2.1,
      (grid_props s.nextShowtimeId 5 (by omega)).2.2, gridLabels_nodup⟩
  · exact ⟨(grid_props s.nextShowtimeId 6 (by omega)).1,
      (grid_props s.nextShowtimeId 6 (by omega)).2.1,
      (grid_props s.nextShowtimeId 6 (by omega)).2.2, gridLabels_nodup⟩
  · exact ⟨(grid_props s.nextShowtimeId 7 (by omega)).1,
      (grid_props s.nextShowtimeId 7 (by omega)).2.1,
      (grid_props s.nextShowtimeId 7 (by omega)).2.2, gridLabels_nodup⟩
  · exact ⟨(grid_props s.nextShowtimeId 8 (by omega)).1,
      (grid_props s.nextShowtimeId 8 (by omega)).2.1,
      (grid_props s.nextShowtimeId 8 (by omega)).2.2, gridLabels_nodup⟩

theorem rowOf_addToRows (rows : List (String × List Seat)) (key k : String) (seat : Seat) :
    rowOf (addToRows rows key seat) k =
      rowOf rows k ++ (if key == k then [seat] else []) := by
  induction rows with
  | nil =>
    by_cases h : (key == k) = true
    · simp [addToRows, rowOf, h]
    · have hb : (key == k) = false := by simpa using h
      simp [addToRows, rowOf, List.find?, hb]
  | cons p rest ih =>
    obtain ⟨k0, v⟩ := p
    by_cases h0 : (k0 == key) = true
    · have hk0 : k0 = key := by simpa using h0
      subst hk0
      by_cases hk : (k0 == k) = true
      · have : k0 = k := by simpa using hk
        subst this
        simp [addToRows, rowOf, List.find?]
      · simp [addToRows, rowOf, List.find?, hk]
    · by_cases hk : (k0 == k) = true
      · have : k0 = k := by simpa using hk
        subst this
        have : ¬ ((k0 : String) == key) = true := h0
        simp [addToRows, rowOf, List.find?, this]
        intro hek
        exact absurd (by simp [hek]) this
      · simp [addToRows, rowOf, List.find?, h0, hk] at ih ⊢
        exact ih

theorem rowOf_groupRows_aux (seats : List Seat) (rows : List (String × List Seat)) (k : String) :
    rowOf (seats.foldl (fun acc seat => addToRows acc (rowKey seat) seat) rows) k =
      rowOf rows k ++ seats.filter (fun x => rowKey x == k) := by
  induction seats generalizing rows with
  | nil => simp [rowOf]
  | cons x xs ih =>
    rw [List.foldl_cons, ih, rowOf_addToRows]
    by_cases h : (rowKey x == k) = true
    · simp [List.filter_cons, h]
    · have hb : (rowKey x == k) = false := by
        cases hx : (rowKey x == k)
        · rfl
        · exact absurd hx h
      simp [List.filter_cons, hb]

/-- Grouping the fetched seats partitions them by leading row letter,
preserving the fetched (per-row) order. -/
theorem rowOf_groupRows (seats : List Seat) (k : String) :
    rowOf (groupRows seats) k = seats.filter (fun x => rowKey x == k) := by
  rw [groupRows, rowOf_groupRows_aux]
  simp [rowOf]

instance seatLabelLeTotal : IsTotal Seat (fun a b => a.seat_label ≤ b.seat_label) :=
  ⟨fun a b => le_total a.seat_label b.seat_label⟩

instance seatLabelLeTrans : IsTrans Seat (fun a b => a.seat_label ≤ b.seat_label) :=
  ⟨fun _ _ _ hab hbc => le_trans hab hbc⟩

/-- C7: for an existing showtime, the seat-map operation leaves the
state unchanged and renders the showtime's seats ordered ascending by
label (a sorted permutation of the showtime's seat set), partitioned
into rows keyed by the leading row letter with the per-row column order
preserved: each row is exactly the label-sorted fetch filtered to that
leading letter, in order. -/
theorem showtime_detail_spec (s : State) (stid : Nat) (showtime : Showtime)
    (hfind : s.showtimes.find? (fun st => st.id == stid) = some showtime) :
    (showtime_detail s stid).2 = s ∧
    (showtime_detail s stid).1 =
      some (showtime,
        groupRows (sortSeatsByLabel (s.seats.filter (fun x => x.showtime_id == showtime.id)))) ∧
    (sortSeatsByLabel (s.seats.filter (fun x => x.showtime_id == showtime.id))).Perm
      (s.seats.filter (fun x => x.showtime_id == showtime.id)) ∧
    List.Sorted (fun a b : Seat => a.seat_label ≤ b.seat_label)
      (sortSeatsByLabel (s.seats.filter (fun x => x.showtime_id == showtime.id))) ∧
    ∀ k, rowOf (groupRows
        (sortSeatsByLabel (s.seats.filter (fun x => x.showtime_id == showtime.id)))) k =
      (sortSeatsByLabel (s.seats.filter (fun x => x.showtime_id == showtime.id))).filter
        (fun x => rowKey x == k) := by
  refine ⟨showtime_detail_snd s stid, ?_, ?_, ?_, fun k => rowOf_groupRows _ k⟩
  · rw [showtime_detail, hfind]
  · exact List.perm_insertionSort _ _
  · exact List.sorted_insertionSort _ _

theorem hashDigest_length (salt password : String) :
    (hashDigest salt password).length = password.length := by
  rw [hashDigest, String.length_mk, List.length_map]
  rfl

theorem generate_password_hash_ne_password (salt password : String) :
    generate_password_hash salt password ≠ password := by
  intro h
  have hlen : (generate_password_hash salt password).length = password.length := by
    rw [h]
  rw [generate_password_hash] at hlen
  simp only [String.length_append, hashDigest_length] at hlen
  have h1 : ("pbkdf2:" : String).length = 7 := rfl
  have h2 : (":" : String).length = 1 := rfl
  rw [h1, h2] at hlen
  omega

/-- C8: registration rejects empty (post-normalization) name, email or
password, and an email already in use (compared case-insensitively via
normalization; stored emails are lowercase by the store invariant),
with no state change; otherwise it creates exactly one user whose
stored credential is the salted hash of the password — never the
plaintext password itself. -/
theorem register_spec (s : State) (name0 email0 password salt : String)
    (hinv : ∀ u ∈ s.users, lower u.email = u.email) :
    (strip name0 = "" ∨ lower (strip email0) = "" ∨ password = "" →
      register s name0 email0 password salt = (.fieldsRequired, s)) ∧
    (¬ (strip name0 = "" ∨ lower (strip email0) = "" ∨ password = "") →
      (∃ u ∈ s.users, lower u.email = lower (strip email0)) →
      register s name0 email0 password salt = (.emailInUse, s)) ∧
    (¬ (strip name0 = "" ∨ lower (strip email0) = "" ∨ password = "") →
      (¬ ∃ u ∈ s.users, lower u.email = lower (strip email0)) →
      ∃ u : User,
        register s name0 email0 password salt =
          (.success, { s with users := s.users ++ [u], nextUserId := s.nextUserId + 1 }) ∧
        u.name = strip name0 ∧ u.email = lower (strip email0) ∧
        u.password_hash = generate_password_hash salt password ∧
        u.password_hash ≠ password) := by
  refine ⟨?_, ?_, ?_⟩
  · intro hempty
    rw [register, if_pos (by simpa [or_assoc] using hempty)]
  · intro hne hdup
    obtain ⟨u, hu, he⟩ := hdup
    rw [register, if_neg (by simpa [and_assoc] using hne), if_pos]
    apply List.find?_isSome.2
    refine ⟨u, hu, ?_⟩
    have : u.email = lower (strip email0) := by rw [← hinv u hu, he]
    simp [this]
  · intro hne hnodup
    rw [register, if_neg (by simpa [and_assoc] using hne), if_neg]
    · exact ⟨_, rfl, rfl, rfl, rfl, generate_password_hash_ne_password salt password⟩
    · intro hsome
      obtain ⟨u, hu, hp⟩ := List.find?_isSome.1 hsome
      apply hnodup
      refine ⟨u, hu, ?_⟩
      have he : u.email = lower (strip email0) := by simpa using hp
      rw [← he, hinv u hu, he]

theorem find_user_by_email (l : List User) (hu : (l.map (fun u => u.email)).Nodup)
    (u : User) (hm : u ∈ l) : l.find? (fun v => v.email == u.email) = some u := by
  induction l with
  | nil => cases hm
  | cons w ws ih =>
    rw [List.map_cons] at hu
    rcases List.mem_cons.1 hm with rfl | hm'
    · rw [List.find?_cons_of_pos _ (by simp)]
    · have hw : w.email ≠ u.email := by
        intro he
        have hmem : u.email ∈ ws.map (fun v => v.email) := List.mem_map.2 ⟨u, hm', rfl⟩
        rw [← he] at hmem
        exact (List.nodup_cons.1 hu).1 hmem
      rw [List.find?_cons_of_neg _ (by simp [hw])]
      exact ih (List.nodup_cons.1 hu).2 hm'

/-- C9: login is case-insensitive on the submitted email — any case
variant of a stored user's email with a verifying password logs that
user in — and every failure, whether no user matches the normalized
email or the password does not verify, produces the identical generic
invalid-credentials response, leaving the two causes indistinguishable. -/
theorem login_spec (s : State) (email0 password : String)
    (huniq : (s.users.map (fun u => u.email)).Nodup) :
    (∀ u ∈ s.users, lower (strip email0) = u.email →
      check_password_hash u.password_hash password = true →
      login s email0 password = (.loggedIn u.id, s)) ∧
    ((¬ ∃ u ∈ s.users, u.email = lower (strip email0) ∧
        check_password_hash u.password_hash password = true) →
      login s email0 password = (.invalid "Invalid email or password.", s)) := by
  constructor
  · intro u hu he hchk
    have hfind : s.users.find? (fun v => v.email == lower (strip email0)) = some u := by
      rw [he]
      exact find_user_by_email s.users huniq u hu
    rw [login, hfind]
    simp only []
    rw [if_pos hchk]
  · intro hno
    rw [login]
    cases hf : s.users.find? (fun v => v.email == lower (strip email0)) with
    | none => rfl
    | some v =>
      have hv := List.find?_some hf
      have hvm := List.mem_of_find?_eq_some hf
      have hve : v.email = lower (strip email0) := by simpa using hv
      have hchk : ¬ check_password_hash v.password_hash password = true := by
        intro hc
        exact hno ⟨v, hvm, hve, hc⟩
      simp only []
      rw [if_neg hchk]

theorem dedup_length_lt_of_not_nodup (sel : List String) (hdup : ¬ sel.Nodup) :
    sel.dedup.length < sel.length := by
  have hsub := List.dedup_sublist sel
  have hle := List.Sublist.length_le hsub
  rcases Nat.lt_or_ge sel.dedup.length sel.length with h | h
  · exact h
  · exfalso
    have heq : sel.dedup.length = sel.length := by omega
    have : sel.dedup = sel := List.Sublist.eq_of_length hsub heq
    exact hdup (this ▸ List.nodup_dedup sel)

theorem matched_length_lt (s : State) (showtime_id : Nat) (sel : List String)
    (hlabels : ((s.seats.filter (fun x => x.showtime_id == showtime_id)).map
      (fun x => x.seat_label)).Nodup)
    (hdup : ¬ sel.Nodup) :
    (s.seats.filter (fun x =>
      x.showtime_id == showtime_id && sel.contains x.seat_label)).length < sel.length := by
  set M := s.seats.filter (fun x =>
    x.showtime_id == showtime_id && sel.contains x.seat_label) with hMdef
  have hM : M = (s.seats.filter (fun x => sel.contains x.seat_label)).filter
      (fun x => x.showtime_id == showtime_id) := by
    rw [hMdef, List.filter_filter]
  have hsubl : List.Sublist M (s.seats.filter (fun x => x.showtime_id == showtime_id)) := by
    rw [hM]
    exact List.Sublist.filter _ (List.filter_sublist _)
  have hnodup : (M.map (fun x => x.seat_label)).Nodup :=
    List.Nodup.sublist (List.Sublist.map _ hsubl) hlabels
  have hsubset : (M.map (fun x => x.seat_label)) ⊆ sel.dedup := by
    intro a ha
    obtain ⟨x, hx, rfl⟩ := List.mem_map.1 ha
    have hcond := List.of_mem_filter hx
    have : sel.contains x.seat_label = true := by
      simp only [Bool.and_eq_true] at hcond
      exact hcond.2
    rw [List.mem_dedup]
    simpa using this
  have hsp := List.Nodup.subperm hnodup hsubset
  have hlen := List.Subperm.length_le hsp
  rw [List.length_map] at hlen
  have := dedup_length_lt_of_not_nodup sel hdup
  omega

/-- C10: a booking request whose seat-label list repeats a label is
always rejected with no state change, because the distinct matched
seats are necessarily fewer than the submitted labels (given the store
invariant that a showtime's seat labels are duplicate-free);
consequently no booking record ever stores a duplicated label. -/
theorem book_rejects_duplicate_labels (s : State) (uid stid : Nat) (sel : List String)
    (now : Nat)
    (hlabels : ((s.seats.filter (fun x => x.showtime_id == stid)).map
      (fun x => x.seat_label)).Nodup)
    (hdup : ¬ sel.Nodup) :
    (book_tickets s uid stid sel now).1 ≠ .success ∧
    (book_tickets s uid stid sel now).2 = s := by
  rw [book_tickets]
  cases hf : s.showtimes.find? (fun st => st.id == stid) with
  | none => exact ⟨by simp, rfl⟩
  | some showtime =>
    have hid : showtime.id = stid := by simpa using List.find?_some hf
    simp only []
    by_cases hemp : sel.isEmpty
    · rw [if_pos hemp]
      exact ⟨by simp, rfl⟩
    · rw [if_neg hemp, if_pos]
      · exact ⟨by simp, rfl⟩
      · apply Bool.or_eq_true_iff.2
        left
        have := matched_length_lt s stid sel hlabels hdup
        rw [hid]
        simpa using Nat.ne_of_lt this

/-- Witness for C1: booking seat A1 again when it is already booked
fails and leaves the store unchanged. -/
theorem book_tickets_rejects_witness :
    book_tickets (wState true) 7 1 ["A1"] 0 = (.unavailable, wState true) :=
  book_tickets_rejects (wState true) 7 1 ["A1"] 0 wShowtime (by rfl) (by decide)
    (Or.inr (by decide))

/-- Witness for C2: booking free seats A1, A2 succeeds. -/
theorem book_tickets_success_witness :
    (book_tickets (wState false) 7 1 ["A1", "A2"] 0).1 = BookResult.success := by
  rw [(book_tickets_success (wState false) 7 1 ["A1", "A2"] 0 wShowtime (by rfl)
    (by decide) (by decide) (by decide)).1]

/-- Witness for C3: booking seat A1 flips its flag false → true while
keeping its identity. -/
theorem seat_flags_monotone_witness :
    ∃ b : Seat, ((wState false).apply (Op.book 7 1 ["A1"] 0)).seats[0]? = some b ∧
      b.showtime_id = (wSeat "A1" false).showtime_id ∧
      b.seat_label = (wSeat "A1" false).seat_label ∧
      (b.is_booked = (wSeat "A1" false).is_booked ∨
        ((wSeat "A1" false).is_booked = false ∧ b.is_booked = true ∧
          ∃ uid stid sel bnow, Op.book 7 1 ["A1"] 0 = Op.book uid stid sel bnow)) :=
  seat_flags_monotone (Op.book 7 1 ["A1"] 0) (wState false) 0 (wSeat "A1" false) (by rfl)

/-- Witness for C4: seeding a store with a movie is a no-op, and
re-seeding an already-seeded fresh store changes nothing. -/
theorem seed_idempotent_witness :
    seed_demo_data (wState false) 30 "ab" = wState false ∧
    seed_demo_data (seed_demo_data emptyState 30 "ab") 45 "cd" =
      seed_demo_data emptyState 30 "ab" :=
  ⟨(seed_idempotent (wState false) 30 30 "ab" "ab").1 (by decide),
   (seed_idempotent emptyState 30 45 "ab" "cd").2.1⟩

/-- Witness for C6: the grid property of the first seeded showtime at a
concrete seeding of a fresh store. -/
theorem seed_seat_grid_witness :
    ((seed_demo_data emptyState 30 "ab").seats.filter
        (fun x => x.showtime_id == (1 : Nat))).map (fun x => x.seat_label) = gridLabels ∧
    ((seed_demo_data emptyState 30 "ab").seats.filter
        (fun x => x.showtime_id == (1 : Nat))).length = 40 ∧ gridLabels.Nodup :=
  have h := seed_seat_grid emptyState 30 "ab" (by rfl) (by rfl) (by rfl)
    ⟨1, 1, 120, 10⟩ (by rw [seed_showtimes_eq emptyState 30 "ab" rfl rfl]; decide)
  ⟨h.1, h.2.2⟩

/-- Witness for C7: the seat map of the concrete showtime. -/
theorem showtime_detail_spec_witness :
    (showtime_detail (wState false) 1).1 =
      some (wShowtime, groupRows (sortSeatsByLabel ((wState false).seats.filter
        (fun x => x.showtime_id == wShowtime.id)))) :=
  (showtime_detail_spec (wState false) 1 wShowtime (by rfl)).2.1

/-- Witness for C8: registering with the demo email in a different case
is rejected with no state change. -/
theorem register_spec_witness :
    register wUsers "Bob" " DEMO@example.com" "pw" "cd" = (.emailInUse, wUsers) :=
  (register_spec wUsers "Bob" " DEMO@example.com" "pw" "cd" (by decide)).2.1
    (by decide) (by decide)

/-- Witness for C9: logging in with a differently-cased, padded email
and the correct password succeeds for the stored user. -/
theorem login_spec_witness :
    login wUsers " Demo@Example.COM " "password" = (.loggedIn 1, wUsers) :=
  (login_spec wUsers " Demo@Example.COM " "password" (by decide)).1 wUser
    (by decide) (by decide) (by decide)

/-- Witness for C10: a request repeating label A1 is rejected with no
state change. -/
theorem book_rejects_duplicate_labels_witness :
    (book_tickets (wState false) 7 1 ["A1", "A1"] 0).1 ≠ BookResult.success ∧
    (book_tickets (wState false) 7 1 ["A1", "A1"] 0).2 = wState false :=
  book_rejects_duplicate_labels (wState false) 7 1 ["A1", "A1"] 0 (by decide) (by decide)
